import Mathlib

/-!
Shallow embedding of the Snake game core (`src/game.ts`).

The game logic is translated function by function:
* `Coordinate` / `coordMatch`  — class `Coordinate` and its `match` method
  (both overloads are componentwise equality; `match` is a Lean keyword,
  hence the name `coordMatch`);
* `snakeMove`                  — `Snake.move` (trail is head-first);
* `checkCollision`             — `Game._checkCollision`;
* `wrapLow`/`wrapHigh`/`wrap`  — the two sequential wraparound `if`s of
  `Game._moveSnake`;
* `moveSnakeState`             — `Game._moveSnake`;
* `createSnake`                — `Game._createSnake` (trail construction);
* `createFruit`                — `Game._createFruit`; the unbounded JS retry
  loop is given an explicit fuel bound, `none` meaning the loop would still
  be running after `fuel` samples; `samples k` is the k-th random pair drawn;
* `tick`                       — one invocation of `Game._run`, with drawing
  and the timer modelled as the `runTimer` flag;
* `start` / `stop` / `softStop` / `restart` — the public session operations;
* `handleKeydown`              — `Game._handleKeydown`.

Callbacks are modelled by identity: a stored callback is `some id`, and
`none` stands for the fresh no-op `function() {}` that `start` substitutes
for an omitted callback (observably equivalent, since only identity and
retention of callbacks matter here). JS falsy defaulting with `||` on the
numeric arguments of `restart` is modelled by `numOr` / `ratOr` (zero and
omitted both fall back to the retained value).
-/

/-- An (x, y) grid coordinate, as the source's `Coordinate` class. -/
structure Coordinate where
  x : Int
  y : Int
deriving DecidableEq, Repr

/-- `Coordinate.match`: componentwise equality (both source overloads). -/
def coordMatch (a b : Coordinate) : Bool :=
  a.x == b.x && a.y == b.y

/-- The source's `Collision` enum. -/
inductive Collision where
  | None
  | Snake
  | Fruit
deriving DecidableEq, Repr

/-- `Difficulty.Easy = 1000 / 8`. -/
def Difficulty.Easy : ℚ := 1000 / 8

/-- `Difficulty.Medium = 1000 / 15`. -/
def Difficulty.Medium : ℚ := 1000 / 15

/-- `Difficulty.Hard = 1000 / 30`. -/
def Difficulty.Hard : ℚ := 1000 / 30

/-- `Snake.move(position, shouldGrow)`: `pop` the tail unless growing, then
`unshift` the new head. -/
def snakeMove (trail : List Coordinate) (position : Coordinate)
    (shouldGrow : Bool) : List Coordinate :=
  if shouldGrow then position :: trail else position :: trail.dropLast

/-- The loop body of `Game._checkCollision`: scan the body cells (indices
1..end of the trail) in order; at each cell first compare to the head
(`Collision.Snake`), then to the fruit (`Collision.Fruit`); `Collision.None`
when the scan falls through. -/
def scanCollision (head fruit : Coordinate) : List Coordinate → Collision
  | [] => Collision.None
  | pos :: rest =>
    if coordMatch pos head then Collision.Snake
    else if coordMatch pos fruit then Collision.Fruit
    else scanCollision head fruit rest

/-- `Game._checkCollision`: head is `trail[0]`, the loop runs over indices
1..end. An empty or single-cell trail yields `Collision.None` (the loop body
never runs). -/
def checkCollision (trail : List Coordinate) (fruit : Coordinate) : Collision :=
  match trail with
  | [] => Collision.None
  | head :: body => scanCollision head fruit body

/-- First wraparound `if` of `Game._moveSnake`: `if (pos < 0) pos = lastCell`. -/
def wrapLow (lastCell p : Int) : Int :=
  if p < 0 then lastCell else p

/-- Second wraparound `if` of `Game._moveSnake`: `if (pos > lastCell) pos = 0`,
applied to the already low-wrapped value. -/
def wrapHigh (lastCell p : Int) : Int :=
  if p > lastCell then 0 else p

/-- Both wraparound `if`s of `Game._moveSnake`, in source order. -/
def wrap (lastCell p : Int) : Int :=
  wrapHigh lastCell (wrapLow lastCell p)

/-- The source's errors: `InvalidStateError` (start while running, stop while
idle) and `InvalidConfigError` (snake size too big for the grid). -/
inductive GameError where
  | invalidState
  | invalidConfig
deriving DecidableEq, Repr

/-- The mutable fields of class `Game` that the game logic touches.
`runTimer : Bool` abstracts whether a tick is scheduled (`_runTimer`),
callbacks are identities (`none` = the no-op `function() {}`). -/
structure GameState where
  snake : Option (List Coordinate)
  fruit : Option Coordinate
  runTimer : Bool
  currentGridSize : Int
  startSnakeSize : Int
  velocityX : Int
  velocityY : Int
  difficulty : ℚ
  fruitsCollected : Nat
  fruitCollectedCb : Option Nat
  gameOverCb : Option Nat
deriving DecidableEq, Repr

/-- `Game.started`: a snake exists. -/
def GameState.started (s : GameState) : Bool :=
  s.snake.isSome

/-- The field values a fresh `Game` instance starts with. -/
def defaultGame : GameState where
  snake := none
  fruit := none
  runTimer := false
  currentGridSize := 21
  startSnakeSize := 5
  velocityX := 1
  velocityY := 0
  difficulty := Difficulty.Medium
  fruitsCollected := 0
  fruitCollectedCb := none
  gameOverCb := none

/-- `Game._softStop`: clear the pending tick timer, the snake and the fruit;
touch nothing else. -/
def softStop (s : GameState) : GameState :=
  { s with runTimer := false, snake := none, fruit := none }

/-- `Game.stop`: `InvalidStateError` when no game is running, else `_softStop`. -/
def stop (s : GameState) : Except (GameError × GameState) GameState :=
  if s.started then Except.ok (softStop s) else Except.error (GameError.invalidState, s)

/-- `Game._moveSnake(shouldGrow)`: wrap head + velocity on each axis
independently and move the snake there. The source dereferences
`this._snake.head`, so the fallthrough arm (no snake, or an empty trail,
where `head` is `null`) is unreachable in any run; it is modelled as a
no-op. -/
def moveSnakeState (s : GameState) (shouldGrow : Bool) : GameState :=
  match s.snake with
  | some (head :: rest) =>
    let lastCell := s.currentGridSize - 1
    let posX := wrap lastCell (head.x + s.velocityX)
    let posY := wrap lastCell (head.y + s.velocityY)
    { s with snake := some (snakeMove (head :: rest) ⟨posX, posY⟩ shouldGrow) }
  | _ => s

/-- x-column of the trail cell built when `_createSnake`'s loop counter has
the (already decremented) value `s`: `x = mid - s`, shifted by `gridSize`
when negative. -/
def snakeCellX (gridSize mid : Int) (s : Nat) : Int :=
  let x := mid - (s : Int)
  if x < 0 then gridSize + x else x

/-- The trail built by `Game._createSnake`'s `while (snakeSize--)` loop:
each iteration `unshift`s its cell, so the final trail lists the counter
values 0, 1, … in order, all on row `mid = ceil(gridSize / 2) - 1`. -/
def createSnake (gridSize : Int) (snakeSize : Nat) : List Coordinate :=
  let mid := Int.ediv (gridSize + 1) 2 - 1
  (List.range snakeSize).map fun s => ⟨snakeCellX gridSize mid s, mid⟩

/-- The retry loop of `Game._createFruit`, sampling `samples i`,
`samples (i+1)`, …: return the first sample on no trail cell, `none` once
`fuel` samples have all failed (the JS loop would still be spinning). -/
def createFruitAux (samples : Nat → Coordinate) (trail : List Coordinate) :
    Nat → Nat → Option Coordinate
  | _, 0 => none
  | i, fuel + 1 =>
    if trail.any (fun cell => coordMatch cell (samples i)) then
      createFruitAux samples trail (i + 1) fuel
    else
      some (samples i)

/-- `Game._createFruit`: retry from the first sample. -/
def createFruit (samples : Nat → Coordinate) (trail : List Coordinate)
    (fuel : Nat) : Option Coordinate :=
  createFruitAux samples trail 0 fuel

/-- One invocation of `Game._run` (drawing elided): classify the current
trail against the current fruit, regenerate fruit / bump the score when the
classification is `Fruit`, move the snake with `shouldGrow` equal to that
classification test, then either soft-stop (classification `Snake`) or
schedule the next tick. `none` models `_createFruit` failing to find a free
cell within `fuel` samples. A call on an idle game returns immediately. -/
def tick (samples : Nat → Coordinate) (fuel : Nat) (s : GameState) :
    Option GameState :=
  match s.snake, s.fruit with
  | some trail, some fruit =>
    let collision := checkCollision trail fruit
    if collision = Collision.Fruit then
      match createFruit samples trail fuel with
      | none => none
      | some newFruit =>
        let s1 := { s with fruit := some newFruit,
                           fruitsCollected := s.fruitsCollected + 1 }
        some { moveSnakeState s1 true with runTimer := true }
    else
      let s2 := moveSnakeState s false
      if collision = Collision.Snake then some (softStop s2)
      else some { s2 with runTimer := true }
  | _, _ => some s

/-- `Game.start`: fail while running; store difficulty, callbacks, grid size
and snake size; then the `_createSnake` size guard (`snakeSize > gridSize - 1`)
may fail — note the stores above have already happened at that point; build
the snake and the fruit, reset the score, and run the first tick. -/
def start (s : GameState) (gridSize snakeSize : Int) (difficulty : ℚ)
    (fruitCollectedCb gameOverCb : Option Nat)
    (samples : Nat → Coordinate) (fuel : Nat) :
    Option (Except (GameError × GameState) GameState) :=
  if s.started then
    some (Except.error (GameError.invalidState, s))
  else
    let s1 := { s with difficulty := difficulty,
                       fruitCollectedCb := fruitCollectedCb,
                       gameOverCb := gameOverCb,
                       currentGridSize := gridSize,
                       startSnakeSize := snakeSize }
    if snakeSize > gridSize - 1 then
      some (Except.error (GameError.invalidConfig, s1))
    else
      let trail := createSnake gridSize snakeSize.toNat
      let s2 := { s1 with snake := some trail }
      match createFruit samples trail fuel with
      | none => none
      | some fruit =>
        (tick samples fuel { s2 with fruit := some fruit, fruitsCollected := 0 }).map
          Except.ok

/-- JS `a || b` on an optional numeric argument: omitted or zero falls back. -/
def numOr (a : Option Int) (b : Int) : Int :=
  match a with
  | none => b
  | some v => if v = 0 then b else v

/-- JS `a || b` on the optional difficulty argument. -/
def ratOr (a : Option ℚ) (b : ℚ) : ℚ :=
  match a with
  | none => b
  | some v => if v = 0 then b else v

/-- `Game.restart`: stop when running, then start with each argument falsy-
defaulted to the retained field. -/
def restart (s : GameState) (gridSize snakeSize : Option Int)
    (difficulty : Option ℚ) (fruitCollectedCb gameOverCb : Option Nat)
    (samples : Nat → Coordinate) (fuel : Nat) :
    Option (Except (GameError × GameState) GameState) :=
  let s1 := if s.started then softStop s else s
  start s1 (numOr gridSize s1.currentGridSize) (numOr snakeSize s1.startSnakeSize)
    (ratOr difficulty s1.difficulty)
    (fruitCollectedCb <|> s1.fruitCollectedCb)
    (gameOverCb <|> s1.gameOverCb) samples fuel

/-- The keys `Game._handleKeydown` reacts to; `other` is every other key code. -/
inductive Key where
  | arrowLeft
  | arrowUp
  | arrowRight
  | arrowDown
  | other
deriving DecidableEq, Repr

/-- `Game._handleKeydown`: an arrow key takes effect only when the velocity
component on the axis it would set to nonzero is currently zero. -/
def handleKeydown (s : GameState) (k : Key) : GameState :=
  match k with
  | Key.arrowUp =>
    if s.velocityY = 0 then { s with velocityX := 0, velocityY := -1 } else s
  | Key.arrowDown =>
    if s.velocityY = 0 then { s with velocityX := 0, velocityY := 1 } else s
  | Key.arrowLeft =>
    if s.velocityX = 0 then { s with velocityX := -1, velocityY := 0 } else s
  | Key.arrowRight =>
    if s.velocityX = 0 then { s with velocityX := 1, velocityY := 0 } else s
  | Key.other => s

/-- The four legal velocities. -/
def isUnitVelocity (v : Int × Int) : Prop :=
  v = (1, 0) ∨ v = (-1, 0) ∨ v = (0, 1) ∨ v = (0, -1)

/-- Keys that set the horizontal velocity component to a nonzero value. -/
def keySetsX : Key → Bool
  | Key.arrowLeft => true
  | Key.arrowRight => true
  | _ => false

/-- Keys that set the vertical velocity component to a nonzero value. -/
def keySetsY : Key → Bool
  | Key.arrowUp => true
  | Key.arrowDown => true
  | _ => false

/-- All grid cells of a `gridSize × gridSize` grid. -/
def gridCells (gridSize : Nat) : List Coordinate :=
  (List.range gridSize).flatMap fun x =>
    (List.range gridSize).map fun y => ⟨(x : Int), (y : Int)⟩

/-- Some grid cell is free of the trail. -/
def hasFreeCell (gridSize : Nat) (trail : List Coordinate) : Bool :=
  (gridCells gridSize).any fun c => !(trail.contains c)

/-- The snake of a successful `start`/`restart` result, `none` on error or
fuel exhaustion (used to state concrete examples without comparing whole
states). -/
def resultSnake (r : Option (Except (GameError × GameState) GameState)) :
    Option (Option (List Coordinate)) :=
  match r with
  | some (Except.ok t) => some t.snake
  | _ => none

/-- Concrete running session on a 5×5 grid about to run head-first into its
own body: moving the head `⟨1,0⟩` right lands on the cell `⟨2,0⟩`, which is
still occupied after the move. The fruit is parked away from the snake at
`⟨4,4⟩`. -/
def aboutToBite : GameState where
  snake := some [⟨1, 0⟩, ⟨1, 1⟩, ⟨2, 1⟩, ⟨2, 0⟩, ⟨3, 0⟩]
  fruit := some ⟨4, 4⟩
  runTimer := true
  currentGridSize := 5
  startSnakeSize := 5
  velocityX := 1
  velocityY := 0
  difficulty := Difficulty.Medium
  fruitsCollected := 0
  fruitCollectedCb := none
  gameOverCb := none

/-- Concrete running session on a 5×5 grid whose body cell `⟨2,1⟩` (not the
head) sits on the fruit: the state in which `_checkCollision` reports a
fruit collision. -/
def aboutToEat : GameState where
  snake := some [⟨1, 0⟩, ⟨2, 0⟩, ⟨2, 1⟩]
  fruit := some ⟨2, 1⟩
  runTimer := true
  currentGridSize := 5
  startSnakeSize := 3
  velocityX := 1
  velocityY := 0
  difficulty := Difficulty.Medium
  fruitsCollected := 0
  fruitCollectedCb := none
  gameOverCb := none

/-- Concrete running session whose trail already overlaps (a body cell
equals the head), so `_checkCollision` reports a self collision. -/
def selfHit : GameState where
  snake := some [⟨1, 0⟩, ⟨1, 0⟩]
  fruit := some ⟨4, 4⟩
  runTimer := true
  currentGridSize := 5
  startSnakeSize := 2
  velocityX := 1
  velocityY := 0
  difficulty := Difficulty.Medium
  fruitsCollected := 0
  fruitCollectedCb := none
  gameOverCb := none

/-- `coordMatch` is propositional equality of coordinates. -/
theorem coordMatch_iff (a b : Coordinate) : coordMatch a b = true ↔ a = b := by
  cases a
  cases b
  simp [coordMatch, Coordinate.mk.injEq]

/-- The retry loop only ever returns a sample off the trail. -/
theorem createFruitAux_some_not_mem (samples : Nat → Coordinate)
    (trail : List Coordinate) (c : Coordinate) :
    ∀ fuel i, createFruitAux samples trail i fuel = some c → c ∉ trail := by
  intro fuel
  induction fuel with
  | zero =>
    intro i h
    simp [createFruitAux] at h
  | succ n ih =>
    intro i h
    unfold createFruitAux at h
    by_cases hI : trail.any (fun cell => coordMatch cell (samples i)) = true
    · rw [if_pos hI] at h
      exact ih (i + 1) h
    · rw [if_neg hI] at h
      injection h with h
      subst h
      intro hmem
      apply hI
      rw [List.any_eq_true]
      exact ⟨samples i, hmem, (coordMatch_iff _ _).mpr rfl⟩

/-- If the retry loop returns, some sample misses the trail. -/
theorem createFruitAux_some_exists (samples : Nat → Coordinate)
    (trail : List Coordinate) :
    ∀ fuel i c, createFruitAux samples trail i fuel = some c →
      ∃ k, samples k ∉ trail := by
  intro fuel
  induction fuel with
  | zero =>
    intro i c h
    simp [createFruitAux] at h
  | succ n ih =>
    intro i c h
    unfold createFruitAux at h
    by_cases hI : trail.any (fun cell => coordMatch cell (samples i)) = true
    · rw [if_pos hI] at h
      exact ih (i + 1) c h
    · refine ⟨i, fun hmem => hI ?_⟩
      rw [List.any_eq_true]
      exact ⟨samples i, hmem, (coordMatch_iff _ _).mpr rfl⟩

/-- If some sample within the fuel bound misses the trail, the retry loop
returns. -/
theorem createFruitAux_terminates (samples : Nat → Coordinate)
    (trail : List Coordinate) :
    ∀ fuel i, (∃ j, j < fuel ∧ samples (i + j) ∉ trail) →
      ∃ c, createFruitAux samples trail i fuel = some c := by
  intro fuel
  induction fuel with
  | zero =>
    rintro i ⟨j, hj, _⟩
    omega
  | succ n ih =>
    rintro i ⟨j, hj, hval⟩
    unfold createFruitAux
    by_cases hI : trail.any (fun cell => coordMatch cell (samples i)) = true
    · rw [if_pos hI]
      apply ih
      rcases j with _ | j
      · exfalso
        rw [List.any_eq_true] at hI
        obtain ⟨cell, hcm, hm⟩ := hI
        have hcell : cell = samples i := (coordMatch_iff _ _).mp hm
        subst hcell
        rw [Nat.add_zero] at hval
        exact hval hcm
      · refine ⟨j, by omega, ?_⟩
        rw [show i + 1 + j = i + (j + 1) by omega]
        exact hval
    · exact ⟨samples i, by rw [if_neg hI]⟩

/-- C1 counterexample: in the state whose trail is `[⟨0,0⟩, ⟨1,0⟩]` (head
`⟨0,0⟩`) with the fruit at `⟨0,0⟩`, the head equals the fruit and no body
cell equals the head, so the claim demands `FruitEaten`; the code returns
`None`, because `_checkCollision` compares the body cells — never the head —
to the fruit. -/
theorem C1_counterexample :
    checkCollision [⟨0, 0⟩, ⟨1, 0⟩] ⟨0, 0⟩ = Collision.None := by decide

/-- C1 amended: the classifier scans the body cells (indices 1..end) in
order and answers at the first cell that equals the head (`SelfCollision`)
or, failing that, equals the fruit (`FruitEaten`); the head itself is never
compared to the fruit. When the head equals the fruit the result is never
`FruitEaten` (the per-cell head comparison short-circuits first). -/
theorem C1_amended (head fruit : Coordinate) (body : List Coordinate) :
    checkCollision (head :: body) fruit =
      (match body.find? (fun c => coordMatch c head || coordMatch c fruit) with
        | none => Collision.None
        | some c => if c = head then Collision.Snake else Collision.Fruit) ∧
    (head = fruit → checkCollision (head :: body) fruit ≠ Collision.Fruit) := by
  have hmain : ∀ l : List Coordinate, scanCollision head fruit l =
      (match l.find? (fun c => coordMatch c head || coordMatch c fruit) with
        | none => Collision.None
        | some c => if c = head then Collision.Snake else Collision.Fruit) := by
    intro l
    induction l with
    | nil => rfl
    | cons c rest ih =>
      by_cases h1 : coordMatch c head = true
      · have hc : c = head := (coordMatch_iff c head).mp h1
        rw [List.find?_cons_of_pos _ (by rw [h1, Bool.true_or])]
        subst hc
        simp [scanCollision, h1]
      · have h1f : coordMatch c head = false := by simpa using h1
        by_cases h2 : coordMatch c fruit = true
        · have hch : ¬ c = head := fun hh => h1 (by subst hh; exact (coordMatch_iff c c).mpr rfl)
          rw [List.find?_cons_of_pos _ (by rw [h1f, h2, Bool.false_or])]
          simp [scanCollision, h1f, h2, hch]
        · have h2f : coordMatch c fruit = false := by simpa using h2
          rw [List.find?_cons_of_neg _ (by rw [h1f, h2f, Bool.false_or]; exact Bool.false_ne_true)]
          simp only [scanCollision, h1f, Bool.false_eq_true, if_false, h2f]
          exact ih
  refine ⟨hmain body, fun hhf => ?_⟩
  show scanCollision head fruit body ≠ Collision.Fruit
  rw [hmain body]
  subst hhf
  rcases hfind : body.find? (fun c => coordMatch c head || coordMatch c head) with _ | c
  · simp
  · have hp := List.find?_some hfind
    rw [Bool.or_self] at hp
    have hc : c = head := (coordMatch_iff c head).mp hp
    simp [hc]

/-- C1 witness: a concrete head-equals-fruit state at which the amended
theorem's tie clause applies. -/
theorem C1_witness : checkCollision [⟨2, 2⟩, ⟨1, 1⟩] ⟨2, 2⟩ ≠ Collision.Fruit :=
  (C1_amended ⟨2, 2⟩ ⟨2, 2⟩ [⟨1, 1⟩]).2 rfl

/-- C3 counterexample: the claim puts the initial snake for
`gridSize = 21, snakeSize = 9` on columns 6..14 of row 10, but column 14 is
not occupied: `_createSnake` builds the `snakeSize` cells *ending* at the
mid column, i.e. columns 2..10. -/
theorem C3_counterexample : (⟨14, 10⟩ : Coordinate) ∉ createSnake 21 9 := by
  decide

/-- C3 amended: with `gridSize = 21, snakeSize = 9` the initial snake
occupies columns 2..10 of row 10 (head at column 10), and the first tick
under the default velocity `(1, 0)` moves the head to `(11, 10)` and drops
the tail cell at column 2. -/
theorem C3_amended :
    createSnake 21 9 =
      [⟨10, 10⟩, ⟨9, 10⟩, ⟨8, 10⟩, ⟨7, 10⟩, ⟨6, 10⟩, ⟨5, 10⟩, ⟨4, 10⟩, ⟨3, 10⟩, ⟨2, 10⟩] ∧
    resultSnake (start defaultGame 21 9 Difficulty.Medium none none (fun _ => ⟨0, 0⟩) 1) =
      some (some [⟨11, 10⟩, ⟨10, 10⟩, ⟨9, 10⟩, ⟨8, 10⟩, ⟨7, 10⟩, ⟨6, 10⟩, ⟨5, 10⟩, ⟨4, 10⟩, ⟨3, 10⟩]) :=
  ⟨by decide, by decide⟩

/-- C6: the next head coordinate is computed per axis independently as
`wrap (gridSize - 1)` of head + velocity, where a sum below 0 wraps to
`gridSize - 1`, a sum above `gridSize - 1` wraps to 0, and an in-range sum
is unchanged. -/
theorem C6_wraparound (g hx hy vx vy : Int) (hg : 1 ≤ g) :
    (∀ (s : GameState) (rest : List Coordinate) (grow : Bool),
        s.snake = some (⟨hx, hy⟩ :: rest) → s.currentGridSize = g →
        s.velocityX = vx → s.velocityY = vy →
        (moveSnakeState s grow).snake =
          some (snakeMove (⟨hx, hy⟩ :: rest)
            ⟨wrap (g - 1) (hx + vx), wrap (g - 1) (hy + vy)⟩ grow)) ∧
    (hx + vx < 0 → wrap (g - 1) (hx + vx) = g - 1) ∧
    (g - 1 < hx + vx → wrap (g - 1) (hx + vx) = 0) ∧
    (0 ≤ hx + vx → hx + vx ≤ g - 1 → wrap (g - 1) (hx + vx) = hx + vx) ∧
    (hy + vy < 0 → wrap (g - 1) (hy + vy) = g - 1) ∧
    (g - 1 < hy + vy → wrap (g - 1) (hy + vy) = 0) ∧
    (0 ≤ hy + vy → hy + vy ≤ g - 1 → wrap (g - 1) (hy + vy) = hy + vy) := by
  refine ⟨?_, ?_, ?_, ?_, ?_, ?_, ?_⟩
  · intro s rest grow hs hgs hvx hvy
    obtain ⟨sn, fr, rt, gs, ss, svx, svy, d, fc, c1, c2⟩ := s
    dsimp only at hs hgs hvx hvy
    subst hs hgs hvx hvy
    rfl
  all_goals (intros; unfold wrap wrapHigh wrapLow; split_ifs <;> omega)

/-- C6 witness: on a 21-cell axis, stepping off 20 in the positive
direction yields 0, and stepping off 0 in the negative direction yields 20. -/
theorem C6_witness :
    wrap (21 - 1) (20 + 1) = 0 ∧ wrap (21 - 1) (0 + (-1)) = 21 - 1 :=
  ⟨(C6_wraparound 21 20 0 1 0 (by norm_num)).2.2.1 (by norm_num),
   (C6_wraparound 21 0 0 (-1) 0 (by norm_num)).2.1 (by norm_num)⟩

/-- C7: whenever fruit placement returns, the returned position differs
from every cell of the snake's current trail, for every trail and every
sample sequence. -/
theorem C7_fruit_off_trail (samples : Nat → Coordinate) (trail : List Coordinate)
    (fuel : Nat) (c : Coordinate) (h : createFruit samples trail fuel = some c) :
    c ∉ trail :=
  createFruitAux_some_not_mem samples trail c fuel 0 h

/-- C7 witness: a concrete placement (constant samples at `⟨1,1⟩`, trail
`[⟨0,0⟩]`) returns `⟨1,1⟩`, which is off the trail. -/
theorem C7_witness : (⟨1, 1⟩ : Coordinate) ∉ [(⟨0, 0⟩ : Coordinate)] :=
  C7_fruit_off_trail (fun _ => ⟨1, 1⟩) [⟨0, 0⟩] 1 ⟨1, 1⟩ (by decide)

/-- C8 counterexample: on a 2×2 grid with the trail occupying only `⟨0,0⟩`
there are free cells, yet for the sample sequence that always draws `⟨0,0⟩`
the retry loop of `_createFruit` never returns (no fuel bound suffices), so
the placement is not total for every sequence of random samples. -/
theorem C8_counterexample :
    hasFreeCell 2 [⟨0, 0⟩] = true ∧
    ¬ ∃ fuel c, createFruit (fun _ => ⟨0, 0⟩) [⟨0, 0⟩] fuel = some c := by
  refine ⟨by decide, ?_⟩
  rintro ⟨fuel, c, h⟩
  have hnone : ∀ n i, createFruitAux (fun _ => (⟨0, 0⟩ : Coordinate)) [⟨0, 0⟩] i n = none := by
    intro n
    induction n with
    | zero => intro i; rfl
    | succ m ih =>
      intro i
      unfold createFruitAux
      rw [if_pos (by decide)]
      exact ih (i + 1)
  rw [createFruit, hnone] at h
  exact Option.noConfusion h

/-- C8 amended: the retry loop terminates (returns for some fuel bound)
exactly when the sample sequence eventually draws a position off the trail;
a free cell on the grid does not by itself guarantee this for every sample
sequence. -/
theorem C8_amended (samples : Nat → Coordinate) (trail : List Coordinate) :
    (∃ fuel c, createFruit samples trail fuel = some c) ↔
      ∃ k, samples k ∉ trail := by
  constructor
  · rintro ⟨fuel, c, h⟩
    exact createFruitAux_some_exists samples trail fuel 0 c h
  · rintro ⟨k, hk⟩
    obtain ⟨c, hc⟩ := createFruitAux_terminates samples trail (k + 1) 0
      ⟨k, by omega, by simpa using hk⟩
    exact ⟨k + 1, c, hc⟩


/-- `_moveSnake` is a no-op on an empty trail (it only rewrites `snake`). -/
theorem moveSnakeState_nil (s : GameState) (grow : Bool) (hs : s.snake = some []) :
    moveSnakeState s grow = s := by
  rcases s with ⟨sn, fr, rt, g, ss, vx, vy, d, fc, c1, c2⟩
  dsimp only at hs
  subst hs
  rfl

/-- `_moveSnake` on a nonempty trail: wrap head + velocity per axis and move
the snake there. -/
theorem moveSnakeState_snake_cons (s : GameState) (grow : Bool) (hd : Coordinate)
    (tl : List Coordinate) (hs : s.snake = some (hd :: tl)) :
    (moveSnakeState s grow).snake =
      some (snakeMove (hd :: tl)
        ⟨wrap (s.currentGridSize - 1) (hd.x + s.velocityX),
         wrap (s.currentGridSize - 1) (hd.y + s.velocityY)⟩ grow) := by
  rcases s with ⟨sn, fr, rt, g, ss, vx, vy, d, fc, c1, c2⟩
  dsimp only at hs
  subst hs
  rfl

/-- `_moveSnake` touches no field other than the snake trail. -/
theorem moveSnakeState_fields (s : GameState) (grow : Bool) :
    (moveSnakeState s grow).fruit = s.fruit ∧
    (moveSnakeState s grow).runTimer = s.runTimer ∧
    (moveSnakeState s grow).currentGridSize = s.currentGridSize ∧
    (moveSnakeState s grow).startSnakeSize = s.startSnakeSize ∧
    (moveSnakeState s grow).velocityX = s.velocityX ∧
    (moveSnakeState s grow).velocityY = s.velocityY ∧
    (moveSnakeState s grow).difficulty = s.difficulty ∧
    (moveSnakeState s grow).fruitsCollected = s.fruitsCollected ∧
    (moveSnakeState s grow).fruitCollectedCb = s.fruitCollectedCb ∧
    (moveSnakeState s grow).gameOverCb = s.gameOverCb := by
  rcases s with ⟨sn, fr, rt, g, ss, vx, vy, d, fc, c1, c2⟩
  rcases sn with _ | tr
  · exact ⟨rfl, rfl, rfl, rfl, rfl, rfl, rfl, rfl, rfl, rfl⟩
  · rcases tr with _ | ⟨hd, tl⟩
    · exact ⟨rfl, rfl, rfl, rfl, rfl, rfl, rfl, rfl, rfl, rfl⟩
    · exact ⟨rfl, rfl, rfl, rfl, rfl, rfl, rfl, rfl, rfl, rfl⟩

/-- Trail length across `_moveSnake`: without growth the length is kept,
with growth it increases by one. -/
theorem moveSnakeState_snake_length (s : GameState) (trail : List Coordinate)
    (hs : s.snake = some trail) :
    (∃ tr, (moveSnakeState s false).snake = some tr ∧ tr.length = trail.length) ∧
    (trail ≠ [] →
      ∃ tr, (moveSnakeState s true).snake = some tr ∧ tr.length = trail.length + 1) := by
  rcases trail with _ | ⟨hd, tl⟩
  · rw [moveSnakeState_nil s false hs]
    exact ⟨⟨[], hs, rfl⟩, fun h => absurd rfl h⟩
  · constructor
    · refine ⟨_, moveSnakeState_snake_cons s false hd tl hs, ?_⟩
      simp [snakeMove, List.length_dropLast]
    · intro _
      refine ⟨_, moveSnakeState_snake_cons s true hd tl hs, ?_⟩
      simp [snakeMove]

/-- One `_run` invocation, split along the classification of the *pre-move*
trail: `None` moves and re-schedules, `Snake` moves then soft-stops, `Fruit`
regenerates the fruit, bumps the score and moves with growth. -/
theorem tick_cases (samples : Nat → Coordinate) (fuel : Nat) (s : GameState)
    (trail : List Coordinate) (fruit : Coordinate)
    (hs : s.snake = some trail) (hf : s.fruit = some fruit) :
    (checkCollision trail fruit = Collision.None →
      tick samples fuel s = some { moveSnakeState s false with runTimer := true }) ∧
    (checkCollision trail fruit = Collision.Snake →
      tick samples fuel s = some (softStop (moveSnakeState s false))) ∧
    (checkCollision trail fruit = Collision.Fruit →
      tick samples fuel s =
        match createFruit samples trail fuel with
        | none => none
        | some newFruit =>
          some { moveSnakeState
              { s with fruit := some newFruit,
                       fruitsCollected := s.fruitsCollected + 1 } true
            with runTimer := true }) := by
  rcases s with ⟨sn, fr, rt, g, ss, vx, vy, d, fc, c1, c2⟩
  dsimp only at hs hf
  subst hs hf
  refine ⟨fun hc => ?_, fun hc => ?_, fun hc => ?_⟩ <;>
    simp only [tick] <;> rw [hc] <;> simp

/-- C2 counterexample: in the `aboutToBite` state the *post-move* trail has
a self collision, so under the claim (move first, classify the post-move
trail) the tick would be a self-collision tick; the code classifies the
*pre-move* trail (`None` here), moves, and keeps the session alive. -/
theorem C2_counterexample :
    checkCollision ((moveSnakeState aboutToBite false).snake.getD []) ⟨4, 4⟩ =
      Collision.Snake ∧
    (tick (fun _ => ⟨4, 4⟩) 1 aboutToBite).map (fun t => t.snake.isSome) =
      some true :=
  ⟨by decide, by decide⟩

/-- C2 amended: on every tick of a running session the collision
classification acting on the tick is computed against the *pre-move* trail
and the fruit; the session ends exactly when that pre-move classification is
`SelfCollision`, and the trail grows exactly when it is `FruitEaten`; the
move to the wraparound of head + velocity happens after the classification,
with the grow flag taken from this same tick's classification. -/
theorem C2_amended (samples : Nat → Coordinate) (fuel : Nat) (s t : GameState)
    (trail : List Coordinate) (fruit : Coordinate)
    (hs : s.snake = some trail) (hf : s.fruit = some fruit)
    (ht : tick samples fuel s = some t) :
    (t.snake = none ↔ checkCollision trail fruit = Collision.Snake) ∧
    ((∃ tr, t.snake = some tr ∧ tr.length = trail.length + 1) ↔
      checkCollision trail fruit = Collision.Fruit) := by
  have hcase := tick_cases samples fuel s trail fruit hs hf
  rcases hcol : checkCollision trail fruit with _ | _ | _
  · rw [hcase.1 hcol] at ht
    injection ht with ht
    subst ht
    obtain ⟨⟨tr, htr, hlen⟩, -⟩ := moveSnakeState_snake_length s trail hs
    constructor
    · simp only [htr]
      constructor
      · intro h
        exact absurd h (by simp)
      · intro h
        exact absurd h (by simp)
    · constructor
      · rintro ⟨tr2, htr2, hlen2⟩
        rw [htr] at htr2
        injection htr2 with htr2
        subst htr2
        omega
      · intro h
        exact absurd h (by simp)
  · rw [hcase.2.1 hcol] at ht
    injection ht with ht
    subst ht
    refine ⟨by simp [softStop], ?_⟩
    constructor
    · rintro ⟨tr2, htr2, -⟩
      simp [softStop] at htr2
    · intro h
      exact absurd h (by simp)
  · have hfr := hcase.2.2 hcol
    rw [hfr] at ht
    rcases hcf : createFruit samples trail fuel with _ | nf
    · rw [hcf] at ht
      exact absurd ht (by simp)
    · rw [hcf] at ht
      injection ht with ht
      subst ht
      have hne : trail ≠ [] := by
        rintro rfl
        rw [show checkCollision [] fruit = Collision.None from rfl] at hcol
        exact Collision.noConfusion hcol
      have hs1 : ({ s with fruit := some nf, fruitsCollected := s.fruitsCollected + 1 } : GameState).snake = some trail := hs
      obtain ⟨-, hgrow⟩ := moveSnakeState_snake_length _ trail hs1
      obtain ⟨tr, htr, hlen⟩ := hgrow hne
      constructor
      · constructor
        · intro h
          exact absurd (htr.symm.trans h) (by simp)
        · intro h
          exact absurd h (by simp)
      · constructor
        · intro _
          rfl
        · intro _
          exact ⟨tr, htr, hlen⟩

/-- C2 witness: a concrete self-collision tick derived through the amended
theorem: ticking the `selfHit` state (a pre-move self collision) destroys
the snake. -/
theorem C2_witness :
    (softStop (moveSnakeState selfHit false)).snake = none :=
  ((C2_amended (fun _ => ⟨4, 4⟩) 1 selfHit (softStop (moveSnakeState selfHit false))
      [⟨1, 0⟩, ⟨1, 0⟩] ⟨4, 4⟩ rfl rfl rfl).1).mpr (by decide)

/-- C4 counterexample: a tick of the `aboutToEat` state detects the fruit as
eaten and its own move already grows the trail from 3 to 4 cells — the
growth is applied by the detecting tick itself, not on the tick following
detection, so there is no one-tick lag between the `FruitEaten`
classification and the trail growing. -/
theorem C4_counterexample :
    checkCollision [⟨1, 0⟩, ⟨2, 0⟩, ⟨2, 1⟩] ⟨2, 1⟩ = Collision.Fruit ∧
    (tick (fun _ => ⟨4, 4⟩) 1 aboutToEat).map (fun t => t.snake.map List.length) =
      some (some 4) :=
  ⟨by decide, by decide⟩

/-- C4 amended: a tick whose (pre-move) classification is `FruitEaten` grows
the trail by exactly 1 with its own move — in the same `_run` invocation as
the detection, not one tick later — and a tick classified `None` leaves the
trail length unchanged (a `SelfCollision` tick destroys the snake instead). -/
theorem C4_amended (samples : Nat → Coordinate) (fuel : Nat) (s t : GameState)
    (trail : List Coordinate) (fruit : Coordinate)
    (hs : s.snake = some trail) (hf : s.fruit = some fruit)
    (ht : tick samples fuel s = some t) :
    (checkCollision trail fruit = Collision.Fruit →
      ∃ tr, t.snake = some tr ∧ tr.length = trail.length + 1) ∧
    (checkCollision trail fruit = Collision.None →
      ∃ tr, t.snake = some tr ∧ tr.length = trail.length) := by
  have hcase := tick_cases samples fuel s trail fruit hs hf
  refine ⟨fun hcol => ?_, fun hcol => ?_⟩
  · have hfr := hcase.2.2 hcol
    rw [hfr] at ht
    rcases hcf : createFruit samples trail fuel with _ | nf
    · rw [hcf] at ht
      exact absurd ht (by simp)
    · rw [hcf] at ht
      injection ht with ht
      subst ht
      have hne : trail ≠ [] := by
        rintro rfl
        rw [show checkCollision [] fruit = Collision.None from rfl] at hcol
        exact Collision.noConfusion hcol
      have hs1 : ({ s with fruit := some nf, fruitsCollected := s.fruitsCollected + 1 } : GameState).snake = some trail := hs
      obtain ⟨tr, htr, hlen⟩ := (moveSnakeState_snake_length _ trail hs1).2 hne
      exact ⟨tr, htr, hlen⟩
  · rw [hcase.1 hcol] at ht
    injection ht with ht
    subst ht
    obtain ⟨tr, htr, hlen⟩ := (moveSnakeState_snake_length s trail hs).1
    exact ⟨tr, htr, hlen⟩

/-- C4 witness: the fruit-detecting tick of the `aboutToEat` state grows the
trail to 4 cells within that same tick. -/
theorem C4_witness :
    ∃ tr, ({ moveSnakeState
        { aboutToEat with fruit := some ⟨4, 4⟩, fruitsCollected := 1 } true
      with runTimer := true } : GameState).snake = some tr ∧ tr.length = 3 + 1 :=
  (C4_amended (fun _ => ⟨4, 4⟩) 1 aboutToEat
      { moveSnakeState { aboutToEat with fruit := some ⟨4, 4⟩, fruitsCollected := 1 } true
        with runTimer := true }
      [⟨1, 0⟩, ⟨2, 0⟩, ⟨2, 1⟩] ⟨2, 1⟩ rfl rfl rfl).1 (by decide)

/-- C5 counterexample: calling `start` on an idle game with
`snakeSize = gridSize = 10` fails with the config error as claimed, but the
returned state shows the call has already overwritten the difficulty, the
grid size and the snake size (the stores in `start` precede the size guard
in `_createSnake`), so the failing call does not leave all session state as
it was. -/
theorem C5_counterexample :
    start defaultGame 10 10 Difficulty.Easy none none (fun _ => ⟨0, 0⟩) 1 =
      some (Except.error (GameError.invalidConfig,
        { defaultGame with difficulty := Difficulty.Easy, currentGridSize := 10,
                           startSnakeSize := 10 })) ∧
    ({ defaultGame with difficulty := Difficulty.Easy, currentGridSize := 10,
                        startSnakeSize := 10 } : GameState) ≠ defaultGame := by
  refine ⟨rfl, fun h => ?_⟩
  exact absurd (congrArg GameState.currentGridSize h) (by decide)

/-- C5 amended: `start` fails with `InvalidStateError` when a game is
already running (state untouched), and with `InvalidConfigError` when
`snakeSize > gridSize - 1` (over the integers, exactly `snakeSize ≥
gridSize`) — but on that config failure the difficulty, callbacks, grid size
and snake size have already been overwritten with the new arguments, while
snake, fruit, score and the scheduled tick are untouched; `stop` fails with
`InvalidStateError` when no game is running, leaving the state unchanged.
All errors are returned synchronously to the caller. -/
theorem C5_amended (s : GameState) (gridSize snakeSize : Int) (difficulty : ℚ)
    (fCb gCb : Option Nat) (samples : Nat → Coordinate) (fuel : Nat) :
    (s.started = true →
      start s gridSize snakeSize difficulty fCb gCb samples fuel =
        some (Except.error (GameError.invalidState, s))) ∧
    (s.started = false → snakeSize > gridSize - 1 →
      start s gridSize snakeSize difficulty fCb gCb samples fuel =
        some (Except.error (GameError.invalidConfig,
          { s with difficulty := difficulty, fruitCollectedCb := fCb,
                   gameOverCb := gCb, currentGridSize := gridSize,
                   startSnakeSize := snakeSize }))) ∧
    (s.started = false → stop s = Except.error (GameError.invalidState, s)) := by
  refine ⟨fun h => ?_, fun h hsz => ?_, fun h => ?_⟩
  · unfold start
    rw [if_pos h]
  · unfold start
    rw [if_neg (by rw [h]; exact Bool.false_ne_true), if_pos hsz]
  · unfold stop
    rw [if_neg (by rw [h]; exact Bool.false_ne_true)]

/-- C5 witness: stopping the idle fresh game fails with the state error and
hands back the state unchanged. -/
theorem C5_witness :
    stop defaultGame = Except.error (GameError.invalidState, defaultGame) :=
  (C5_amended defaultGame 21 5 Difficulty.Medium none none (fun _ => ⟨0, 0⟩) 1).2.2 rfl

/-- A keydown preserves the four-velocity invariant. -/
theorem handleKeydown_unit (s : GameState) (k : Key)
    (h : isUnitVelocity (s.velocityX, s.velocityY)) :
    isUnitVelocity ((handleKeydown s k).velocityX, (handleKeydown s k).velocityY) := by
  simp only [isUnitVelocity, Prod.mk.injEq] at h
  rcases h with ⟨hx, hy⟩ | ⟨hx, hy⟩ | ⟨hx, hy⟩ | ⟨hx, hy⟩ <;>
    cases k <;>
      simp [handleKeydown, hx, hy, isUnitVelocity]

/-- Any keydown sequence preserves the four-velocity invariant. -/
theorem foldl_handleKeydown_unit (ks : List Key) :
    ∀ s : GameState, isUnitVelocity (s.velocityX, s.velocityY) →
      isUnitVelocity ((ks.foldl handleKeydown s).velocityX,
                      (ks.foldl handleKeydown s).velocityY) := by
  induction ks with
  | nil => exact fun s h => h
  | cons k ks ih => exact fun s h => ih (handleKeydown s k) (handleKeydown_unit s k h)

/-- C9: an arrow key on the snake's current axis of travel — in particular
the exact reversal — is a silent no-op: a horizontal key is ignored unless
the horizontal velocity component is zero, a vertical key unless the
vertical component is zero; consequently, after any sequence of keydowns a
velocity that started as one of (1,0), (-1,0), (0,1), (0,-1) remains one of
them. -/
theorem C9_direction_lock (s : GameState) :
    (∀ k, keySetsX k = true → s.velocityX ≠ 0 → handleKeydown s k = s) ∧
    (∀ k, keySetsY k = true → s.velocityY ≠ 0 → handleKeydown s k = s) ∧
    (∀ ks : List Key, isUnitVelocity (s.velocityX, s.velocityY) →
      isUnitVelocity ((ks.foldl handleKeydown s).velocityX,
                      (ks.foldl handleKeydown s).velocityY)) := by
  refine ⟨?_, ?_, fun ks h => foldl_handleKeydown_unit ks s h⟩
  · intro k hk hvx
    cases k <;> first
      | exact absurd hk (by decide)
      | (simp only [handleKeydown]; rw [if_neg hvx])
  · intro k hk hvy
    cases k <;> first
      | exact absurd hk (by decide)
      | (simp only [handleKeydown]; rw [if_neg hvy])

/-- C9 witness: with the default rightward velocity (1,0), pressing
ArrowRight (same axis; ArrowLeft behaves identically) changes nothing. -/
theorem C9_witness : handleKeydown defaultGame Key.arrowRight = defaultGame :=
  (C9_direction_lock defaultGame).1 Key.arrowRight rfl (by decide)

/-- C10: `_softStop` — reached from `stop()` and from the self-collision
game-over branch of `_run` — clears only the pending tick timer, the snake
and the fruit; grid size, snake size, difficulty, score and both registered
callbacks are retained (on the game-over path the score is also untouched,
since a self-collision tick never bumps it), and a subsequent `restart`
whose parameters are omitted or zero starts with exactly the retained
values and callbacks. -/
theorem C10_retention (s : GameState) (samples : Nat → Coordinate) (fuel : Nat) :
    ((softStop s).runTimer = false ∧ (softStop s).snake = none ∧
     (softStop s).fruit = none ∧
     (softStop s).currentGridSize = s.currentGridSize ∧
     (softStop s).startSnakeSize = s.startSnakeSize ∧
     (softStop s).difficulty = s.difficulty ∧
     (softStop s).fruitsCollected = s.fruitsCollected ∧
     (softStop s).fruitCollectedCb = s.fruitCollectedCb ∧
     (softStop s).gameOverCb = s.gameOverCb) ∧
    (s.started = true → stop s = Except.ok (softStop s)) ∧
    (∀ (trail : List Coordinate) (fruit : Coordinate) (t : GameState),
      s.snake = some trail → s.fruit = some fruit →
      checkCollision trail fruit = Collision.Snake →
      tick samples fuel s = some t →
      t = softStop (moveSnakeState s false) ∧
      t.currentGridSize = s.currentGridSize ∧
      t.startSnakeSize = s.startSnakeSize ∧
      t.difficulty = s.difficulty ∧
      t.fruitsCollected = s.fruitsCollected ∧
      t.fruitCollectedCb = s.fruitCollectedCb ∧
      t.gameOverCb = s.gameOverCb) ∧
    (s.started = false →
      restart s none none none none none samples fuel =
        start s s.currentGridSize s.startSnakeSize s.difficulty
          s.fruitCollectedCb s.gameOverCb samples fuel ∧
      restart s (some 0) (some 0) (some 0) none none samples fuel =
        start s s.currentGridSize s.startSnakeSize s.difficulty
          s.fruitCollectedCb s.gameOverCb samples fuel) := by
  refine ⟨⟨rfl, rfl, rfl, rfl, rfl, rfl, rfl, rfl, rfl⟩, fun h => ?_, ?_, fun h => ?_⟩
  · unfold stop
    rw [if_pos h]
  · intro trail fruit t hs hf hcol ht
    have hcase := (tick_cases samples fuel s trail fruit hs hf).2.1 hcol
    rw [hcase] at ht
    injection ht with ht
    subst ht
    obtain ⟨h1, h2, h3, h4, h5, h6, h7, h8, h9, h10⟩ := moveSnakeState_fields s false
    exact ⟨rfl, by simp [softStop, h3], by simp [softStop, h4], by simp [softStop, h7],
      by simp [softStop, h8], by simp [softStop, h9], by simp [softStop, h10]⟩
  · have hidle : ¬ (s.started = true) := by rw [h]; exact Bool.false_ne_true
    constructor
    · unfold restart
      rw [if_neg hidle]
      simp [numOr, ratOr]
    · unfold restart
      rw [if_neg hidle]
      simp [numOr, ratOr]

/-- C10 witness: restarting the idle fresh game with all parameters omitted
is the same call as starting it with the retained grid size, snake size,
difficulty and callbacks. -/
theorem C10_witness :
    restart defaultGame none none none none none (fun _ => ⟨0, 0⟩) 1 =
      start defaultGame 21 5 Difficulty.Medium none none (fun _ => ⟨0, 0⟩) 1 :=
  ((C10_retention defaultGame (fun _ => ⟨0, 0⟩) 1).2.2.2 rfl).1
